import Mathlib

/-!
Shallow embedding of the detection-and-notification pipeline of
`src/bot.py` (class `ObjectDetector`), together with theorems settling the
specification claims about it.

Conventions of the embedding:
* Python strings are Lean `String`s; `str.lower()` is `String.toLower`,
  `str.upper()` is `String.toUpper` (the captions and trigger words of this
  program are ASCII text, where these agree with Python).
* The regular-expression character class `\w` of `re.findall(r'\b\w+\b', s)`
  is a letter, a digit or an underscore; a token is a maximal run of such
  characters.
* Collaborator calls (HTTP fetch, captioning model, disk writes, Telegram
  sends) are modelled by an `Oracle` giving each call's outcome; the
  pipeline is then a pure function from configuration, oracle and request
  parameters to the list of observable `Event`s it performs (messages
  attempted and file writes/deletes), in program order.
* Python truthiness on the optional `requested_by` argument is `Option.isSome`
  (Telegram user ids are nonzero), and on a string it is nonemptiness.
-/

namespace TeleSpotter

/-- `DetectionResult` of `src/bot.py` lines 28-31: pydantic value object with
fields `object_detected`, `trigger_word` (default `""`), `caption`
(default `""`). -/
structure DetectionResult where
  object_detected : Bool
  trigger_word : String := ""
  caption : String := ""
deriving Repr, DecidableEq

/-- A character matched by Python's `\w` (ASCII range): letter, digit or
underscore. -/
def isWordChar (c : Char) : Bool := c.isAlphanum || c == '_'

/-- Python's `str.lower()` on the characters of the string (ASCII case
mapping, where Lean's `Char.toLower` and Python agree). -/
def lowerStr (s : String) : String := String.mk (s.data.map Char.toLower)

/-- Helper for `wordTokens`: scan the remaining characters, `cur` holding the
(reversed) word-character run read so far; a run is emitted when it ends. -/
def tokensAux : List Char → List Char → List String
  | cur, [] => if cur.isEmpty then [] else [String.mk cur.reverse]
  | cur, c :: cs =>
    if isWordChar c then tokensAux (c :: cur) cs
    else if cur.isEmpty then tokensAux [] cs
    else String.mk cur.reverse :: tokensAux [] cs

/-- `re.findall(r'\b\w+\b', s)` (bot.py line 199): the maximal runs of
word characters of `s`, in order. -/
def wordTokens (s : String) : List String := tokensAux [] s.data

/-- The trigger-word loop of `ObjectDetector.detect_object`
(bot.py lines 194-221), applied to an already produced caption:
lower-case the caption, collect its whole-word tokens
(`caption_words = set(re.findall(r'\b\w+\b', caption_lower))`), then scan
`trigger_words` in configured order and stop at the first `word` with
`word.lower() in caption_words`; the result keeps the full original
caption, and on a hit stores the trigger word as configured. -/
def detectMatch (trigger_words : List String) (caption : String) : DetectionResult :=
  let caption_lower := lowerStr caption
  let caption_words := wordTokens caption_lower
  match trigger_words.find? (fun word => caption_words.contains (lowerStr word)) with
  | some word => { object_detected := true, trigger_word := word, caption := caption }
  | none => { object_detected := false, caption := caption }

/-- `word.lower() in caption_words` (bot.py line 208): the membership test a
configured trigger word undergoes against the caption's token set. -/
def triggerPresent (caption word : String) : Bool :=
  (wordTokens (lowerStr caption)).contains (lowerStr word)

/-- Python's `str.upper()` on the characters of the string (ASCII case
mapping, bot.py line 266). -/
def upperStr (s : String) : String := String.mk (s.data.map Char.toUpper)

/-- The configuration fields of `config.yaml` the pipeline consumes. -/
structure Config where
  trigger_words : List String
  notify_users : List Nat
  save_detected_images : Bool
  image_save_path : String
deriving Repr, DecidableEq

/-- One Telegram Bot API call site: `send_message` or `send_photo` to a
chat id. -/
inductive Call where
  | msg (chat : Nat)
  | photo (chat : Nat)
deriving Repr, DecidableEq

/-- The text bodies bot.py builds, one constructor per construction site,
carrying the data interpolated there. -/
inductive MsgText where
  | detectedBroadcast (trigger_word caption timestamp : String) -- lines 266-269
  | detectComplete (trigger_word : String) -- line 310
  | detectCompleteNone (trigger_words : List String) (caption : String) -- line 324
  | noTriggerDetected (trigger_words : List String) (caption : String) -- line 392
  | captureFailed -- line 362
deriving Repr, DecidableEq

/-- An observable step of a pipeline run, in program order. A send event
records the attempted Telegram call and whether the transport succeeded
(`ok = false`: the call raised, was caught and logged). File events record
writes and deletions of image files. -/
inductive Event where
  | sendText (chat : Nat) (text : MsgText) (ok : Bool)
  | sendPhoto (chat : Nat) (caption : Option String) (ok : Bool)
  | wroteFile (path : String)
  | deletedFile (path : String)
deriving Repr, DecidableEq

/-- Outcomes of the collaborator calls one pipeline run makes: whether the
camera fetch succeeds, the outcome of the captioning block (error message on
a raise), whether the `save_image` disk write succeeds, the outcome of each
Telegram call, and the `datetime.now()` timestamp string. -/
structure Oracle where
  captureOk : Bool
  captionResult : Except String String
  writeOk : Bool
  sendOk : Call → Bool
  now : String

/-- `ObjectDetector.detect_object` (bot.py lines 180-231) given the outcome
of its try block: the image bytes are written to `temp_image.jpg`
(lines 184-186); on a caption the trigger loop (`detectMatch`) runs and the
temporary file is removed (lines 217-219); if the block raises with message
`e`, the except branch removes the temporary file and returns an unmatched
result with caption `"Error: " ++ e` (lines 222-231). In both branches the
temporary file is gone when the function returns. -/
def detect_object (trigger_words : List String)
    (captionResult : Except String String) : DetectionResult × List Event :=
  match captionResult with
  | .ok caption =>
    (detectMatch trigger_words caption,
     [.wroteFile "temp_image.jpg", .deletedFile "temp_image.jpg"])
  | .error e =>
    ({ object_detected := false, caption := "Error: " ++ e },
     [.wroteFile "temp_image.jpg", .deletedFile "temp_image.jpg"])

/-- `ObjectDetector.save_image` (bot.py lines 233-260). When
`save_detected_images` is off, the fixed-name temporary file
`temp_detection_image.jpg` is written so the photo can still be sent
(lines 235-245); otherwise the archive file named from the trigger word (or
`"unknown"` when it is empty) and the timestamp is written under
`image_save_path` (lines 247-260). A failed write is logged and yields no
path. -/
def save_image (cfg : Config) (writeOk : Bool) (now : String)
    (detection_result : DetectionResult) : Option String × List Event :=
  if !cfg.save_detected_images then
    if writeOk then
      (some "temp_detection_image.jpg", [.wroteFile "temp_detection_image.jpg"])
    else (none, [])
  else
    let trigger_word :=
      if detection_result.trigger_word ≠ "" then detection_result.trigger_word
      else "unknown"
    let filepath := cfg.image_save_path ++ "/" ++ trigger_word ++ "_" ++ now ++ ".jpg"
    if writeOk then (some filepath, [.wroteFile filepath]) else (none, [])

/-- `detection_result.trigger_word.upper() if detection_result.trigger_word
else "OBJECT"` (bot.py line 266). -/
def upperTrigger (detection_result : DetectionResult) : String :=
  if detection_result.trigger_word ≠ "" then upperStr detection_result.trigger_word
  else "OBJECT"

/-- One iteration of the notification loop of `send_telegram_notification`
(bot.py lines 277-302) for user `u`: skip when `u` is the requester
(lines 280-281); otherwise try to send the alert text and, when it went
through and an image path is present, the photo (sent without caption,
lines 293-298); a raise is caught and logged and ends only this user's
block (so a failed text send skips that user's photo). -/
def notifyUser (sendOk : Call → Bool) (text : MsgText) (image_path : Option String)
    (requested_by : Option Nat) (u : Nat) : List Event :=
  if requested_by = some u then []
  else if sendOk (.msg u) then
    .sendText u text true ::
      (match image_path with
       | some _ => [.sendPhoto u none (sendOk (.photo u))]
       | none => [])
  else [.sendText u text false]

/-- The notification loop of `send_telegram_notification`
(bot.py lines 276-302): one `notifyUser` block per entry of
`notify_users`, in order. -/
def broadcastLoop (cfg : Config) (sendOk : Call → Bool) (text : MsgText)
    (image_path : Option String) (requested_by : Option Nat) : List Event :=
  (cfg.notify_users.map (notifyUser sendOk text image_path requested_by)).flatten

/-- The requester branch of `send_telegram_notification`
(bot.py lines 304-327): when a requester is present, on a match try to send
the confirmation text (line 308-311) and then, when an image path is
present, the photo captioned with the caption (lines 313-320); on no match
send the no-detection text carrying the trigger-word list and the caption
(lines 321-325). The whole block is one try, so a failed confirmation text
skips the photo, and any raise is caught and logged (lines 326-327). -/
def requesterReply (cfg : Config) (sendOk : Call → Bool)
    (detection_result : DetectionResult) (image_path : Option String) :
    Option Nat → List Event
  | none => []
  | some r =>
    if detection_result.object_detected then
      if sendOk (.msg r) then
        .sendText r (.detectComplete (upperTrigger detection_result)) true ::
          (match image_path with
           | some _ => [.sendPhoto r (some detection_result.caption) (sendOk (.photo r))]
           | none => [])
      else [.sendText r (.detectComplete (upperTrigger detection_result)) false]
    else
      [.sendText r (.detectCompleteNone cfg.trigger_words detection_result.caption)
        (sendOk (.msg r))]

/-- `ObjectDetector.send_telegram_notification` (bot.py lines 262-332).
The alert text carries the upper-cased trigger word (or `"OBJECT"`), the
caption and the timestamp (lines 266-269). When `notify_all` is false and a
requester is present, the loop over `notify_users` is skipped entirely
(lines 272-274, the `pass` branch); otherwise every listed user other than
the requester gets the alert (lines 276-302). Afterwards the requester,
when present, receives the dedicated reply (lines 304-327). -/
def send_telegram_notification (cfg : Config) (sendOk : Call → Bool)
    (now : String) (detection_result : DetectionResult)
    (image_path : Option String) (requested_by : Option Nat)
    (notify_all : Bool) : List Event :=
  let text : MsgText :=
    .detectedBroadcast (upperTrigger detection_result) detection_result.caption now
  (if !notify_all && requested_by.isSome then []
   else broadcastLoop cfg sendOk text image_path requested_by) ++
    requesterReply cfg sendOk detection_result image_path requested_by

/-- The notification phase of `check_for_objects` (bot.py lines 377-407):
on a match, dispatch through `send_telegram_notification`, with
`notify_all=False` exactly when the run is an explicit request with a
requester (lines 381-385); on no match, reply to the requester when one is
present (lines 389-407): the no-detection text with the caption and, for an
explicit request with an available image, the photo captioned
`"Current camera view"`; the reply block is one try, so a failed text send
skips the photo. -/
def notifyPhase (cfg : Config) (sendOk : Call → Bool) (now : String)
    (detection_result : DetectionResult) (image_path : Option String)
    (requested_by : Option Nat) (explicit_request : Bool) : List Event :=
  if detection_result.object_detected then
    if explicit_request && requested_by.isSome then
      send_telegram_notification cfg sendOk now detection_result image_path
        requested_by false
    else
      send_telegram_notification cfg sendOk now detection_result image_path
        requested_by true
  else
    match requested_by with
    | none => []
    | some r =>
      if sendOk (.msg r) then
        .sendText r (.noTriggerDetected cfg.trigger_words detection_result.caption)
            true ::
          (if explicit_request then
            match image_path with
            | some _ => [.sendPhoto r (some "Current camera view") (sendOk (.photo r))]
            | none => []
           else [])
      else
        [.sendText r (.noTriggerDetected cfg.trigger_words detection_result.caption)
          false]

/-- The steps of `check_for_objects` after capture and detection
(bot.py lines 372-407): materialize the image exactly when the request is
explicit or a trigger matched (lines 373-375), then run the notification
phase on the resulting optional path. -/
def afterDetect (cfg : Config) (o : Oracle) (detection_result : DetectionResult)
    (requested_by : Option Nat) (explicit_request : Bool) : List Event :=
  let saved :=
    if explicit_request || detection_result.object_detected then
      save_image cfg o.writeOk o.now detection_result
    else (none, [])
  saved.2 ++ notifyPhase cfg o.sendOk o.now detection_result saved.1
    requested_by explicit_request

/-- `ObjectDetector.check_for_objects` (bot.py lines 345-409): capture the
image; on failure send the capture-failure notice to the requester when one
is present (the send itself guarded by try/except, lines 357-365) and end
the run — no caption, match, persistence or dispatch step executes; on
success run detection, then image materialization and notification. The
`manual` flag only affects logging. -/
def check_for_objects (cfg : Config) (o : Oracle) (manual : Bool)
    (requested_by : Option Nat) (explicit_request : Bool) : List Event :=
  if !o.captureOk then
    match requested_by with
    | some r => [.sendText r .captureFailed (o.sendOk (.msg r))]
    | none => []
  else
    let det := detect_object cfg.trigger_words o.captionResult
    det.2 ++ afterDetect cfg o det.1 requested_by explicit_request

/-- The origin of a pipeline run (the three trigger source adapters). -/
inductive Origin where
  | Scheduled
  | ManualExplicit
  | ManualImplicit
deriving Repr, DecidableEq

/-- The keyword arguments each trigger source passes to `check_for_objects`:
the scheduler (bot.py lines 420 and 429) passes `manual=False,
explicit_request=False` and no requester; the `/detect` command handler
(line 163) passes `manual=True, requested_by=<user>, explicit_request=True`;
the keyboard hotkey (line 343) passes `manual=True, explicit_request=False`
and no requester. -/
def runRequest (cfg : Config) (o : Oracle) :
    Origin → Option Nat → List Event
  | .Scheduled, _ => check_for_objects cfg o false none false
  | .ManualExplicit, r => check_for_objects cfg o true r true
  | .ManualImplicit, _ => check_for_objects cfg o true none false

/-- Effect of one event on the set of files a run has on disk. -/
def applyEvent (fs : List String) : Event → List String
  | .wroteFile p => if fs.contains p then fs else fs ++ [p]
  | .deletedFile p => fs.filter (fun q => q ≠ p)
  | _ => fs

/-- The files a run leaves on disk: fold its events over the empty initial
state (the run's own files do not pre-exist). -/
def filesAfter (events : List Event) : List String := events.foldl applyEvent []

/-- Whether an event is a messaging event (text or photo send). -/
def isSend : Event → Bool
  | .sendText _ _ _ => true
  | .sendPhoto _ _ _ => true
  | _ => false

/-- The messaging events of a trace, in order. -/
def sendEvents (events : List Event) : List Event := events.filter isSend

/-- The chat a send event addresses. -/
def eventChat : Event → Option Nat
  | .sendText chat _ _ => some chat
  | .sendPhoto chat _ _ => some chat
  | _ => none

/-- The chats to which a text-message send is attempted, in order,
successful or not. -/
def textChats (events : List Event) : List Nat :=
  events.filterMap (fun e =>
    match e with
    | .sendText chat _ _ => some chat
    | _ => none)

/-- A concrete configuration: one trigger word, two subscribed users,
archiving disabled. -/
def cfgTwoUsers : Config :=
  { trigger_words := ["cat"], notify_users := [1, 2],
    save_detected_images := false, image_save_path := "images" }

/-- A Telegram transport on which every call succeeds. -/
def sendAllOk : Call → Bool := fun _ => true

/-- A Telegram transport failing exactly the text send to chat 2. -/
def sendFailTextTwo : Call → Bool := fun c => decide (c ≠ Call.msg 2)

/-- A run in which everything succeeds and the caption matches the trigger
word of `cfgTwoUsers`. -/
def oracleCat : Oracle :=
  { captureOk := true, captionResult := .ok "a cat", writeOk := true,
    sendOk := sendAllOk, now := "20240101_120000" }

/-- A run in which everything succeeds and the caption matches no trigger
word of `cfgTwoUsers`. -/
def oracleDog : Oracle := { oracleCat with captionResult := .ok "a dog" }

/-- A run in which the captioning block raises. -/
def oracleCaptionErr : Oracle :=
  { oracleCat with captionResult := .error "model crashed" }

/-- A run in which the camera fetch fails. -/
def oracleNoCapture : Oracle := { oracleCat with captureOk := false }

/-- A concrete matched detection result. -/
def drCat : DetectionResult :=
  { object_detected := true, trigger_word := "cat", caption := "a cat" }

theorem detectMatch_eq_find (trigger_words : List String) (caption : String) :
    detectMatch trigger_words caption =
      match trigger_words.find? (fun word => triggerPresent caption word) with
      | some word => { object_detected := true, trigger_word := word, caption := caption }
      | none => { object_detected := false, caption := caption } := by
  simp [detectMatch, triggerPresent]

theorem detectMatch_caption (trigger_words : List String) (caption : String) :
    (detectMatch trigger_words caption).caption = caption := by
  rw [detectMatch_eq_find]
  cases trigger_words.find? (fun word => triggerPresent caption word) <;> rfl

theorem detectMatch_matched_iff (trigger_words : List String) (caption : String) :
    (detectMatch trigger_words caption).object_detected = true ↔
      ∃ word ∈ trigger_words, triggerPresent caption word = true := by
  rw [detectMatch_eq_find]
  rcases h : trigger_words.find? (fun word => triggerPresent caption word) with _ | word
  · simp only [List.find?_eq_none] at h
    simpa using fun word hw => h word hw
  · have hp := List.find?_some h
    have hm := List.mem_of_find?_eq_some h
    simpa using ⟨word, hm, hp⟩

theorem detect_object_events (trigger_words : List String)
    (cr : Except String String) :
    (detect_object trigger_words cr).2 =
      [.wroteFile "temp_image.jpg", .deletedFile "temp_image.jpg"] := by
  cases cr <;> rfl

theorem save_image_events (cfg : Config) (writeOk : Bool) (now : String)
    (dr : DetectionResult) :
    (save_image cfg writeOk now dr).2 =
      match (save_image cfg writeOk now dr).1 with
      | some p => [Event.wroteFile p]
      | none => [] := by
  unfold save_image
  split
  · split <;> rfl
  · split <;> split <;> rfl

theorem save_image_some (cfg : Config) (now : String) (dr : DetectionResult) :
    ∃ p, (save_image cfg true now dr).1 = some p := by
  unfold save_image
  split
  · exact ⟨_, rfl⟩
  · exact ⟨_, rfl⟩

theorem notifyUser_sends (sendOk : Call → Bool) (text : MsgText)
    (ip : Option String) (rb : Option Nat) (u : Nat) :
    ∀ e ∈ notifyUser sendOk text ip rb u, isSend e = true := by
  intro e he
  unfold notifyUser at he
  split at he
  · simp at he
  · split at he
    · rcases ip with _ | p <;> simp at he <;>
        rcases he with rfl | rfl <;> rfl
    · simp at he
      subst he
      rfl

theorem requesterReply_sends (cfg : Config) (sendOk : Call → Bool)
    (dr : DetectionResult) (ip : Option String) (rb : Option Nat) :
    ∀ e ∈ requesterReply cfg sendOk dr ip rb, isSend e = true := by
  intro e he
  rcases rb with _ | r
  · simp only [requesterReply] at he
    simp at he
  · simp only [requesterReply] at he
    split at he
    · split at he
      · rcases ip with _ | p <;> simp at he <;>
          rcases he with rfl | rfl <;> rfl
      · simp at he
        subst he
        rfl
    · simp at he
      subst he
      rfl

theorem broadcastLoop_sends (cfg : Config) (sendOk : Call → Bool)
    (text : MsgText) (ip : Option String) (rb : Option Nat) :
    ∀ e ∈ broadcastLoop cfg sendOk text ip rb, isSend e = true := by
  intro e he
  unfold broadcastLoop at he
  rw [List.mem_flatten] at he
  obtain ⟨l, hl, hel⟩ := he
  rw [List.mem_map] at hl
  obtain ⟨u, _, rfl⟩ := hl
  exact notifyUser_sends sendOk text ip rb u e hel

theorem stn_sends (cfg : Config) (sendOk : Call → Bool) (now : String)
    (dr : DetectionResult) (ip : Option String) (rb : Option Nat)
    (notify_all : Bool) :
    ∀ e ∈ send_telegram_notification cfg sendOk now dr ip rb notify_all,
      isSend e = true := by
  intro e he
  unfold send_telegram_notification at he
  rw [List.mem_append] at he
  rcases he with he | he
  · split at he
    · simp at he
    · exact broadcastLoop_sends cfg sendOk _ ip rb e he
  · exact requesterReply_sends cfg sendOk dr ip rb e he

theorem notifyPhase_sends (cfg : Config) (sendOk : Call → Bool) (now : String)
    (dr : DetectionResult) (ip : Option String) (rb : Option Nat)
    (ex : Bool) :
    ∀ e ∈ notifyPhase cfg sendOk now dr ip rb ex, isSend e = true := by
  intro e he
  rcases rb with _ | r
  · simp only [notifyPhase] at he
    split at he
    · split at he <;> exact stn_sends cfg sendOk now dr ip none _ e he
    · simp at he
  · simp only [notifyPhase] at he
    split at he
    · split at he <;> exact stn_sends cfg sendOk now dr ip (some r) _ e he
    · split at he
      · rw [List.mem_cons] at he
        rcases he with rfl | he
        · rfl
        · rcases ip with _ | p
          · split at he <;> simp at he
          · split at he
            · simp at he
              subst he
              rfl
            · simp at he
      · simp at he
        subst he
        rfl

theorem applyEvent_send (fs : List String) (e : Event) (h : isSend e = true) :
    applyEvent fs e = fs := by
  cases e <;> simp [isSend] at h ⊢ <;> rfl

theorem foldl_applyEvent_sends (es : List Event) (fs : List String)
    (h : ∀ e ∈ es, isSend e = true) : es.foldl applyEvent fs = fs := by
  induction es generalizing fs with
  | nil => rfl
  | cons e es ih =>
    rw [List.foldl_cons, applyEvent_send fs e (h e (by simp))]
    exact ih fs fun e' he' => h e' (by simp [he'])

theorem sendEvents_append (a b : List Event) :
    sendEvents (a ++ b) = sendEvents a ++ sendEvents b :=
  List.filter_append ..

theorem sendEvents_of_sends (es : List Event)
    (h : ∀ e ∈ es, isSend e = true) : sendEvents es = es :=
  List.filter_eq_self.mpr h

theorem sendEvents_detect (trigger_words : List String)
    (cr : Except String String) :
    sendEvents (detect_object trigger_words cr).2 = [] := by
  rw [detect_object_events]
  rfl

theorem sendEvents_save (cfg : Config) (writeOk : Bool) (now : String)
    (dr : DetectionResult) :
    sendEvents (save_image cfg writeOk now dr).2 = [] := by
  rw [save_image_events]
  cases (save_image cfg writeOk now dr).1 <;> rfl

theorem textChats_append (a b : List Event) :
    textChats (a ++ b) = textChats a ++ textChats b :=
  List.filterMap_append ..

theorem textChats_detect (trigger_words : List String)
    (cr : Except String String) :
    textChats (detect_object trigger_words cr).2 = [] := by
  rw [detect_object_events]
  rfl

theorem textChats_save (cfg : Config) (writeOk : Bool) (now : String)
    (dr : DetectionResult) :
    textChats (save_image cfg writeOk now dr).2 = [] := by
  rw [save_image_events]
  cases (save_image cfg writeOk now dr).1 <;> rfl

theorem textChats_requesterReply (cfg : Config) (sendOk : Call → Bool)
    (dr : DetectionResult) (ip : Option String) (r : Nat) :
    textChats (requesterReply cfg sendOk dr ip (some r)) = [r] := by
  simp only [requesterReply]
  split
  · split
    · rcases ip with _ | p <;> rfl
    · rfl
  · rfl

theorem foldl_applyEvent_detect (trigger_words : List String)
    (cr : Except String String) :
    ((detect_object trigger_words cr).2).foldl applyEvent [] = [] := by
  rw [detect_object_events]
  rfl

theorem filesAfter_check (cfg : Config) (o : Oracle) (manual : Bool)
    (r : Option Nat) (ex : Bool) :
    filesAfter (check_for_objects cfg o manual r ex) =
      if o.captureOk then
        match (if ex || (detect_object cfg.trigger_words o.captionResult).1.object_detected
               then save_image cfg o.writeOk o.now
                      (detect_object cfg.trigger_words o.captionResult).1
               else (none, [])).1 with
        | some p => [p]
        | none => []
      else [] := by
  rcases hc : o.captureOk with _ | _
  · unfold check_for_objects
    rw [hc]
    rcases r with _ | rq <;> simp [filesAfter, applyEvent]
  · unfold check_for_objects afterDetect
    rw [hc]
    simp only [Bool.not_true, Bool.false_eq_true, if_false, if_true]
    unfold filesAfter
    rw [List.foldl_append, List.foldl_append, foldl_applyEvent_detect,
      foldl_applyEvent_sends _ _
        (notifyPhase_sends cfg o.sendOk o.now
          (detect_object cfg.trigger_words o.captionResult).1 _ r ex)]
    split
    · rw [save_image_events]
      rcases (save_image cfg o.writeOk o.now
          (detect_object cfg.trigger_words o.captionResult).1).1 with _ | p
      · rfl
      · rfl
    · rfl

theorem slash_mem_archive (a tw now : String) :
    '/' ∈ (a ++ "/" ++ tw ++ "_" ++ now ++ ".jpg").data := by
  have h1 : ∀ x y : String, (x ++ y).data = x.data ++ y.data := fun _ _ => rfl
  have h2 : '/' ∈ "/".data := by decide
  simp only [h1, List.mem_append]
  tauto

theorem archive_ne_temp (a tw now : String) :
    a ++ "/" ++ tw ++ "_" ++ now ++ ".jpg" ≠ "temp_image.jpg" := by
  intro h
  have hs := slash_mem_archive a tw now
  rw [h] at hs
  revert hs
  decide

theorem save_image_fst_shape (cfg : Config) (writeOk : Bool) (now : String)
    (dr : DetectionResult) :
    (save_image cfg writeOk now dr).1 = none ∨
      (cfg.save_detected_images = false ∧
        (save_image cfg writeOk now dr).1 = some "temp_detection_image.jpg") ∨
      (cfg.save_detected_images = true ∧
        ∃ tw, (save_image cfg writeOk now dr).1 =
          some (cfg.image_save_path ++ "/" ++ tw ++ "_" ++ now ++ ".jpg")) := by
  unfold save_image
  split
  · rename_i hoff
    split
    · exact Or.inr (Or.inl ⟨by simpa using hoff, rfl⟩)
    · exact Or.inl rfl
  · rename_i hon
    split <;> split
    · exact Or.inr (Or.inr ⟨by simpa using hon, _, rfl⟩)
    · exact Or.inl rfl
    · exact Or.inr (Or.inr ⟨by simpa using hon, _, rfl⟩)
    · exact Or.inl rfl

theorem saved_fst_shape (cfg : Config) (o : Oracle) (ex : Bool) :
    (if ex || (detect_object cfg.trigger_words o.captionResult).1.object_detected
      then save_image cfg o.writeOk o.now
             (detect_object cfg.trigger_words o.captionResult).1
      else (none, [])).1 = none ∨
      (cfg.save_detected_images = false ∧
        (if ex || (detect_object cfg.trigger_words o.captionResult).1.object_detected
          then save_image cfg o.writeOk o.now
                 (detect_object cfg.trigger_words o.captionResult).1
          else (none, [])).1 = some "temp_detection_image.jpg") ∨
      (cfg.save_detected_images = true ∧
        ∃ tw,
          (if ex || (detect_object cfg.trigger_words o.captionResult).1.object_detected
            then save_image cfg o.writeOk o.now
                   (detect_object cfg.trigger_words o.captionResult).1
            else (none, [])).1 =
            some (cfg.image_save_path ++ "/" ++ tw ++ "_" ++ o.now ++ ".jpg")) := by
  split
  · exact save_image_fst_shape cfg o.writeOk o.now _
  · exact Or.inl rfl

theorem textChats_notifyUser (sendOk : Call → Bool) (text : MsgText)
    (ip : Option String) (rb : Option Nat) (u : Nat) :
    textChats (notifyUser sendOk text ip rb u) =
      if rb = some u then [] else [u] := by
  unfold notifyUser
  split
  · rfl
  · split
    · rcases ip with _ | p <;> rfl
    · rfl

theorem triggerPresent_iff (caption word : String) :
    triggerPresent caption word = true ↔
      lowerStr word ∈ wordTokens (lowerStr caption) :=
  List.elem_iff

theorem find_first_present (ws : List String) (c : String) (i : Nat)
    (hi : i < ws.length)
    (hpres : triggerPresent c (ws.get ⟨i, hi⟩) = true)
    (hfirst : ∀ w ∈ ws.take i, triggerPresent c w = false) :
    ws.find? (fun w => triggerPresent c w) = some (ws.get ⟨i, hi⟩) := by
  induction ws generalizing i with
  | nil => exact absurd hi (by simp)
  | cons a t ih =>
    cases i with
    | zero => exact List.find?_cons_of_pos t hpres
    | succ n =>
      have ha : triggerPresent c a = false := hfirst a (by simp [List.take_succ_cons])
      rw [List.find?_cons_of_neg t (by simp [ha])]
      exact ih n (by simpa using hi) hpres
        (fun w hw => hfirst w (by simp [List.take_succ_cons, hw]))

/-- C3 counterexample: the claim's matching criterion — a trigger word
matches iff the word itself equals one of the whole-word tokens of the
lower-cased caption — fails for a trigger word that is not lower-case:
with caption `"a cat sat"` (tokens `a`, `cat`, `sat`) the trigger word
`"CAT"` produces a match although `"CAT"` equals none of the tokens,
because line 208 of bot.py lowers the trigger word before the membership
test. -/
theorem C3_counterexample :
    wordTokens (lowerStr "a cat sat") = ["a", "cat", "sat"] ∧
      (detectMatch ["CAT"] "a cat sat").object_detected = true ∧
      "CAT" ∉ wordTokens (lowerStr "a cat sat") := by
  decide

/-- C3 (amended): the matcher lower-cases the caption and tokenizes it into
whole words with non-word characters as separators, and a trigger word
matches iff its lower-casing equals one of those whole-word tokens; caption
"a cat sat" with trigger "cat" yields matched=true, caption "category error"
with trigger "cat" yields matched=false, "cats." matches trigger "cats", and
"catsup" does not match trigger "cat". -/
theorem C3_whole_word_matching :
    (∀ caption word : String,
      (detectMatch [word] caption).object_detected = true ↔
        lowerStr word ∈ wordTokens (lowerStr caption)) ∧
      (detectMatch ["cat"] "a cat sat").object_detected = true ∧
      (detectMatch ["cat"] "category error").object_detected = false ∧
      (detectMatch ["cats"] "cats.").object_detected = true ∧
      (detectMatch ["cat"] "catsup").object_detected = false := by
  refine ⟨fun caption word => ?_, by decide, by decide, by decide, by decide⟩
  rw [detectMatch_matched_iff, ← triggerPresent_iff]
  simp

/-- C4: whenever some configured trigger word is present in the caption's
token set, the matcher reports a match and returns the first present word in
configuration order (the word at the least index whose lower-casing is a
token), not the word occurring earliest in the caption. -/
theorem C4_first_configured_word_wins (ws : List String) (c : String)
    (i : Nat) (hi : i < ws.length)
    (hpres : triggerPresent c (ws.get ⟨i, hi⟩) = true)
    (hfirst : ∀ w ∈ ws.take i, triggerPresent c w = false) :
    (detectMatch ws c).object_detected = true ∧
      (detectMatch ws c).trigger_word = ws.get ⟨i, hi⟩ := by
  rw [detectMatch_eq_find, find_first_present ws c i hi hpres hfirst]
  exact ⟨rfl, rfl⟩

/-- C4 witness: triggers `["dog","cat"]` on caption "a cat and a dog" give
trigger word "dog" — the first in configuration order, although "cat" occurs
first in the caption. -/
theorem C4_witness :
    (detectMatch ["dog", "cat"] "a cat and a dog").object_detected = true ∧
      (detectMatch ["dog", "cat"] "a cat and a dog").trigger_word = "dog" :=
  C4_first_configured_word_wins ["dog", "cat"] "a cat and a dog" 0
    (by decide) (by decide) (by decide)

/-- C5: when no configured word is present as a token of the caption, the
matcher returns matched=false with an empty trigger word, and in every case
(matched or not) the result's caption field is the full input caption,
unchanged. -/
theorem C5_unmatched_and_caption_preserved (ws : List String) (c : String) :
    (detectMatch ws c).caption = c ∧
      ((∀ w ∈ ws, triggerPresent c w = false) →
        (detectMatch ws c).object_detected = false ∧
          (detectMatch ws c).trigger_word = "") := by
  refine ⟨detectMatch_caption ws c, fun h => ?_⟩
  have hn : ws.find? (fun w => triggerPresent c w) = none :=
    List.find?_eq_none.mpr (fun w hw => by simp [h w hw])
  rw [detectMatch_eq_find, hn]
  exact ⟨rfl, rfl⟩

/-- C5 witness: trigger "cat" on caption "a dog ran" yields matched=false,
trigger word "", caption preserved. -/
theorem C5_witness :
    (detectMatch ["cat"] "a dog ran").caption = "a dog ran" ∧
      (detectMatch ["cat"] "a dog ran").object_detected = false ∧
      (detectMatch ["cat"] "a dog ran").trigger_word = "" :=
  ⟨(C5_unmatched_and_caption_preserved ["cat"] "a dog ran").1,
   (C5_unmatched_and_caption_preserved ["cat"] "a dog ran").2 (by decide)⟩

/-- C2 counterexample: a scheduled run with archiving disabled whose caption
matches the trigger word materializes `temp_detection_image.jpg` for
transmission and never deletes it: the file is still on disk when the run
completes, although `save_detected_images` is false. -/
theorem C2_counterexample :
    cfgTwoUsers.save_detected_images = false ∧
      filesAfter (runRequest cfgTwoUsers oracleCat .Scheduled none) =
        ["temp_detection_image.jpg"] := by
  decide

/-- C2 (amended): after any run (success or failure at any step) the
captioning temp file `temp_image.jpg` never remains on disk; but the
transmission file materialized when archiving is disabled is NOT deleted
before the run ends: with `save_detected_images` off, what remains after the
run is either nothing or exactly the fixed-name file
`temp_detection_image.jpg`. -/
theorem C2_transient_file_cleanup (cfg : Config) (o : Oracle) (manual : Bool)
    (r : Option Nat) (ex : Bool) :
    "temp_image.jpg" ∉ filesAfter (check_for_objects cfg o manual r ex) ∧
      (cfg.save_detected_images = false →
        filesAfter (check_for_objects cfg o manual r ex) = [] ∨
          filesAfter (check_for_objects cfg o manual r ex) =
            ["temp_detection_image.jpg"]) := by
  rw [filesAfter_check]
  split
  · rcases saved_fst_shape cfg o ex with h | ⟨_, h⟩ | ⟨hs, tw, h⟩ <;> rw [h]
    · exact ⟨by simp, fun _ => Or.inl rfl⟩
    · exact ⟨by decide, fun _ => Or.inr rfl⟩
    · constructor
      · show "temp_image.jpg" ∉
          [cfg.image_save_path ++ "/" ++ tw ++ "_" ++ o.now ++ ".jpg"]
        simp only [List.mem_singleton]
        intro hmem
        exact archive_ne_temp cfg.image_save_path tw o.now hmem.symm
      · intro hfalse
        rw [hfalse] at hs
        simp at hs
  · exact ⟨by simp, fun _ => Or.inl rfl⟩

/-- C2 (amended) witness: the all-succeeding matched scheduled run with
archiving disabled leaves no `temp_image.jpg` behind, and the only file it
leaves is `temp_detection_image.jpg`. -/
theorem C2_witness :
    "temp_image.jpg" ∉
        filesAfter (check_for_objects cfgTwoUsers oracleCat false none false) ∧
      (filesAfter (check_for_objects cfgTwoUsers oracleCat false none false) = [] ∨
        filesAfter (check_for_objects cfgTwoUsers oracleCat false none false) =
          ["temp_detection_image.jpg"]) :=
  ⟨(C2_transient_file_cleanup cfgTwoUsers oracleCat false none false).1,
   (C2_transient_file_cleanup cfgTwoUsers oracleCat false none false).2 rfl⟩

theorem explicit_run_shape (cfg : Config) (o : Oracle) (rq : Option Nat)
    (hcap : o.captureOk = true) :
    runRequest cfg o .ManualExplicit rq =
      (detect_object cfg.trigger_words o.captionResult).2 ++
        ((save_image cfg o.writeOk o.now
            (detect_object cfg.trigger_words o.captionResult).1).2 ++
          notifyPhase cfg o.sendOk o.now
            (detect_object cfg.trigger_words o.captionResult).1
            (save_image cfg o.writeOk o.now
              (detect_object cfg.trigger_words o.captionResult).1).1
            rq true) := by
  simp only [runRequest, check_for_objects, afterDetect, hcap]
  simp

theorem notifyPhase_matched_explicit (cfg : Config) (sendOk : Call → Bool)
    (now : String) (dr : DetectionResult) (ip : Option String) (r : Nat)
    (hm : dr.object_detected = true) :
    notifyPhase cfg sendOk now dr ip (some r) true =
      requesterReply cfg sendOk dr ip (some r) := by
  simp only [notifyPhase, send_telegram_notification, hm]
  simp

/-- C1 counterexample: a ManualExplicit matched run with recipient list
`[1, 2]` and requester 2 produces this complete trace — nothing at all is
sent to recipient 1, contradicting "broadcasts ... to every entry in the
recipient list except the requester": `check_for_objects` passes
`notify_all=False` for an explicit request with a requester (bot.py
lines 382-383), and `send_telegram_notification` then skips the whole
broadcast loop (lines 272-274). -/
theorem C1_counterexample :
    cfgTwoUsers.notify_users = [1, 2] ∧
      runRequest cfgTwoUsers oracleCat .ManualExplicit (some 2) =
        [.wroteFile "temp_image.jpg", .deletedFile "temp_image.jpg",
         .wroteFile "temp_detection_image.jpg",
         .sendText 2 (.detectComplete "CAT") true,
         .sendPhoto 2 (some "a cat") true] := by
  decide

/-- C1 (amended): for every run with origin ManualExplicit and a matched
detection result, the broadcast loop is skipped entirely — no recipient
other than the requester is contacted — and the dispatch consists solely of
the requester's dedicated confirmation (text, then photo with the caption
when an image is available); in particular the requester never receives a
duplicate from the broadcast loop. -/
theorem C1_explicit_matched_requester_only (cfg : Config) (o : Oracle)
    (r : Nat) (hcap : o.captureOk = true)
    (hm : (detect_object cfg.trigger_words o.captionResult).1.object_detected
      = true) :
    sendEvents (runRequest cfg o .ManualExplicit (some r)) =
        requesterReply cfg o.sendOk
          (detect_object cfg.trigger_words o.captionResult).1
          (save_image cfg o.writeOk o.now
            (detect_object cfg.trigger_words o.captionResult).1).1 (some r) ∧
      textChats (runRequest cfg o .ManualExplicit (some r)) = [r] := by
  rw [explicit_run_shape cfg o (some r) hcap,
    notifyPhase_matched_explicit _ _ _ _ _ _ hm]
  constructor
  · rw [sendEvents_append, sendEvents_append, sendEvents_detect,
      sendEvents_save, sendEvents_of_sends _
        (requesterReply_sends cfg o.sendOk _ _ (some r))]
    simp
  · rw [textChats_append, textChats_append, textChats_detect,
      textChats_save, textChats_requesterReply]
    simp

/-- C1 (amended) witness at a concrete matched explicit run with
requester 2. -/
theorem C1_witness :
    sendEvents (runRequest cfgTwoUsers oracleCat .ManualExplicit (some 2)) =
        requesterReply cfgTwoUsers oracleCat.sendOk
          (detect_object cfgTwoUsers.trigger_words oracleCat.captionResult).1
          (save_image cfgTwoUsers oracleCat.writeOk oracleCat.now
            (detect_object cfgTwoUsers.trigger_words
              oracleCat.captionResult).1).1 (some 2) ∧
      textChats (runRequest cfgTwoUsers oracleCat .ManualExplicit (some 2)) =
        [2] :=
  C1_explicit_matched_requester_only cfgTwoUsers oracleCat 2 rfl (by decide)

/-- C6: when the captioning block fails with message `e`, the failure is
recovered inside `detect_object`: the run's result is an unmatched
DetectionResult whose caption is `"Error: " ++ e`, and the run continues
into `afterDetect` — the persistence and notification steps — with that
unmatched result, exactly as for any unmatched detection. -/
theorem C6_caption_error_recovered (cfg : Config) (o : Oracle) (manual : Bool)
    (r : Option Nat) (ex : Bool) (e : String)
    (hcap : o.captureOk = true) (herr : o.captionResult = .error e) :
    (detect_object cfg.trigger_words o.captionResult).1 =
        { object_detected := false, trigger_word := "",
          caption := "Error: " ++ e } ∧
      check_for_objects cfg o manual r ex =
        [.wroteFile "temp_image.jpg", .deletedFile "temp_image.jpg"] ++
          afterDetect cfg o
            { object_detected := false, trigger_word := "",
              caption := "Error: " ++ e } r ex := by
  constructor
  · rw [herr]
    rfl
  · unfold check_for_objects
    rw [hcap, herr]
    simp [detect_object]

/-- C6 witness: a concrete run whose captioning fails with
"model crashed". -/
theorem C6_witness :
    (detect_object cfgTwoUsers.trigger_words oracleCaptionErr.captionResult).1 =
        { object_detected := false, trigger_word := "",
          caption := "Error: " ++ "model crashed" } ∧
      check_for_objects cfgTwoUsers oracleCaptionErr true (some 2) true =
        [.wroteFile "temp_image.jpg", .deletedFile "temp_image.jpg"] ++
          afterDetect cfgTwoUsers oracleCaptionErr
            { object_detected := false, trigger_word := "",
              caption := "Error: " ++ "model crashed" } (some 2) true :=
  C6_caption_error_recovered cfgTwoUsers oracleCaptionErr true (some 2) true
    "model crashed" rfl rfl

/-- C7: when image acquisition fails, the run ends immediately: the whole
trace is a single could-not-capture-image failure message to the requester
when one is present, and empty otherwise — no caption, match, persistence
or dispatch event occurs. -/
theorem C7_capture_failure_terminates (cfg : Config) (o : Oracle)
    (manual : Bool) (r : Option Nat) (ex : Bool)
    (hfail : o.captureOk = false) :
    check_for_objects cfg o manual r ex =
      match r with
      | some rq => [.sendText rq .captureFailed (o.sendOk (.msg rq))]
      | none => [] := by
  unfold check_for_objects
  rw [hfail]
  rfl

/-- C7 witness: a concrete failed capture with requester 7 yields exactly
the one failure message. -/
theorem C7_witness :
    check_for_objects cfgTwoUsers oracleNoCapture true (some 7) true =
      [.sendText 7 .captureFailed true] :=
  C7_capture_failure_terminates cfgTwoUsers oracleNoCapture true (some 7)
    true rfl

/-- C8: an explicit request with a requester, on a successful capture with a
successful image write and a deliverable requester text, yields exactly one
text message to the requester followed by a photo send to the requester —
for both the matched and the unmatched outcome — and no message to anyone
else: no broadcast on the unmatched outcome, and the unmatched text carries
the caption while the photo is captioned "Current camera view". -/
theorem C8_explicit_reply_both_outcomes (cfg : Config) (o : Oracle) (r : Nat)
    (hcap : o.captureOk = true) (hw : o.writeOk = true)
    (hok : o.sendOk (.msg r) = true) :
    sendEvents (runRequest cfg o .ManualExplicit (some r)) =
      if (detect_object cfg.trigger_words o.captionResult).1.object_detected
      then
        [.sendText r (.detectComplete (upperTrigger
            (detect_object cfg.trigger_words o.captionResult).1)) true,
         .sendPhoto r
           (some (detect_object cfg.trigger_words o.captionResult).1.caption)
           (o.sendOk (.photo r))]
      else
        [.sendText r (.noTriggerDetected cfg.trigger_words
            (detect_object cfg.trigger_words o.captionResult).1.caption) true,
         .sendPhoto r (some "Current camera view") (o.sendOk (.photo r))] := by
  obtain ⟨p, hp⟩ :=
    save_image_some cfg o.now (detect_object cfg.trigger_words o.captionResult).1
  rw [explicit_run_shape cfg o (some r) hcap, hw,
    sendEvents_append, sendEvents_append, sendEvents_detect, sendEvents_save,
    sendEvents_of_sends _
      (notifyPhase_sends cfg o.sendOk o.now _ _ (some r) true)]
  simp only [List.nil_append]
  cases hm : (detect_object cfg.trigger_words o.captionResult).1.object_detected
  · simp only [notifyPhase, hm, hp, hok]
    simp
  · rw [notifyPhase_matched_explicit _ _ _ _ _ _ hm]
    simp only [requesterReply, hm, hok, hp]
    simp

/-- C8 witness: a concrete unmatched explicit run with requester 5. -/
theorem C8_witness :
    sendEvents (runRequest cfgTwoUsers oracleDog .ManualExplicit (some 5)) =
      if (detect_object cfgTwoUsers.trigger_words
            oracleDog.captionResult).1.object_detected
      then
        [.sendText 5 (.detectComplete (upperTrigger
            (detect_object cfgTwoUsers.trigger_words
              oracleDog.captionResult).1)) true,
         .sendPhoto 5
           (some (detect_object cfgTwoUsers.trigger_words
             oracleDog.captionResult).1.caption)
           (oracleDog.sendOk (.photo 5))]
      else
        [.sendText 5 (.noTriggerDetected cfgTwoUsers.trigger_words
            (detect_object cfgTwoUsers.trigger_words
              oracleDog.captionResult).1.caption) true,
         .sendPhoto 5 (some "Current camera view")
           (oracleDog.sendOk (.photo 5))] :=
  C8_explicit_reply_both_outcomes cfgTwoUsers oracleDog 5 rfl rfl rfl

theorem notifyUser_congr (sendOk sendOk' : Call → Bool) (text : MsgText)
    (ip : Option String) (rb : Option Nat) (u : Nat)
    (h1 : sendOk (.msg u) = sendOk' (.msg u))
    (h2 : sendOk (.photo u) = sendOk' (.photo u)) :
    notifyUser sendOk text ip rb u = notifyUser sendOk' text ip rb u := by
  unfold notifyUser
  rw [h1, h2]

theorem textChats_flatten_loop (sendOk : Call → Bool) (text : MsgText)
    (ip : Option String) (rq : Nat) (us : List Nat) :
    textChats ((us.map (notifyUser sendOk text ip (some rq))).flatten) =
      us.filter (fun u => u ≠ rq) := by
  induction us with
  | nil => rfl
  | cons u us ih =>
    rw [List.map_cons, List.flatten_cons, textChats_append, ih,
      textChats_notifyUser, List.filter_cons]
    by_cases h : u = rq
    · subst h
      simp
    · simp [h, Ne.symm h]

/-- C9: in one dispatch call with `notify_all` set and requester `rq`,
(1) a text send is attempted to every listed recipient other than the
requester, and then to the requester, whatever the outcome of any other
send (the attempted-chat list does not depend on the transport oracle at
all), and (2) the broadcast-loop events depend only on the outcomes of the
calls to non-requester recipients, so a failure to notify the requester
cannot affect the broadcast deliveries. -/
theorem C9_delivery_isolation (cfg : Config) (dr : DetectionResult)
    (ip : Option String) (rq : Nat) (now : String)
    (sendOk sendOk' : Call → Bool) :
    textChats (send_telegram_notification cfg sendOk now dr ip (some rq) true)
        = cfg.notify_users.filter (fun u => u ≠ rq) ++ [rq] ∧
      ((∀ u ∈ cfg.notify_users, u ≠ rq →
          sendOk (.msg u) = sendOk' (.msg u) ∧
            sendOk (.photo u) = sendOk' (.photo u)) →
        broadcastLoop cfg sendOk
            (.detectedBroadcast (upperTrigger dr) dr.caption now) ip (some rq)
          = broadcastLoop cfg sendOk'
              (.detectedBroadcast (upperTrigger dr) dr.caption now) ip
              (some rq)) := by
  constructor
  · simp only [send_telegram_notification, Bool.not_true, Bool.false_and,
      Bool.false_eq_true, if_false, broadcastLoop]
    rw [textChats_append, textChats_flatten_loop, textChats_requesterReply]
  · intro h
    unfold broadcastLoop
    have key : ∀ us : List Nat,
        (∀ u ∈ us, u ≠ rq →
          sendOk (.msg u) = sendOk' (.msg u) ∧
            sendOk (.photo u) = sendOk' (.photo u)) →
        (us.map (notifyUser sendOk
            (.detectedBroadcast (upperTrigger dr) dr.caption now) ip
            (some rq))).flatten =
          (us.map (notifyUser sendOk'
              (.detectedBroadcast (upperTrigger dr) dr.caption now) ip
              (some rq))).flatten := by
      intro us
      induction us with
      | nil => intro _; rfl
      | cons u us ih =>
        intro hu
        rw [List.map_cons, List.map_cons, List.flatten_cons,
          List.flatten_cons, ih (fun v hv hne => hu v (by simp [hv]) hne)]
        by_cases hur : u = rq
        · subst hur
          have huu : notifyUser sendOk
              (.detectedBroadcast (upperTrigger dr) dr.caption now) ip
              (some u) u = notifyUser sendOk'
              (.detectedBroadcast (upperTrigger dr) dr.caption now) ip
              (some u) u := by
            unfold notifyUser
            simp
          rw [huu]
        · have h12 := hu u (by simp) hur
          rw [notifyUser_congr sendOk sendOk' _ ip (some rq) u h12.1 h12.2]
    exact key cfg.notify_users h

/-- C9 witness: recipients `[1, 2]`, requester 2, comparing the all-ok
transport with one that fails exactly the requester's text send: the
attempted-chat list is `[1, 2]` either way, and the broadcast events are
identical. -/
theorem C9_witness :
    textChats (send_telegram_notification cfgTwoUsers sendAllOk
          "20240101_120000" drCat (some "temp_detection_image.jpg") (some 2)
          true)
        = cfgTwoUsers.notify_users.filter (fun u => u ≠ 2) ++ [2] ∧
      broadcastLoop cfgTwoUsers sendAllOk
          (.detectedBroadcast (upperTrigger drCat) drCat.caption
            "20240101_120000") (some "temp_detection_image.jpg") (some 2)
        = broadcastLoop cfgTwoUsers sendFailTextTwo
            (.detectedBroadcast (upperTrigger drCat) drCat.caption
              "20240101_120000") (some "temp_detection_image.jpg") (some 2) :=
  ⟨(C9_delivery_isolation cfgTwoUsers drCat (some "temp_detection_image.jpg")
      2 "20240101_120000" sendAllOk sendFailTextTwo).1,
   (C9_delivery_isolation cfgTwoUsers drCat (some "temp_detection_image.jpg")
      2 "20240101_120000" sendAllOk sendFailTextTwo).2 (by decide)⟩

/-- C10: a Scheduled or ManualImplicit run (no requester) whose detection
result is unmatched sends no message to anyone: the run's trace contains no
send events at all — no broadcast and no requester reply. -/
theorem C10_unmatched_no_requester_silent (cfg : Config) (o : Oracle)
    (hcap : o.captureOk = true)
    (hum : (detect_object cfg.trigger_words o.captionResult).1.object_detected
      = false) :
    sendEvents (runRequest cfg o .Scheduled none) = [] ∧
      sendEvents (runRequest cfg o .ManualImplicit none) = [] := by
  have key : ∀ manual : Bool,
      sendEvents (check_for_objects cfg o manual none false) = [] := by
    intro manual
    unfold check_for_objects afterDetect
    rw [hcap]
    simp [hum, notifyPhase, sendEvents_append, sendEvents_detect]
  exact ⟨key false, key true⟩

/-- C10 witness: the all-succeeding unmatched run on caption "a dog". -/
theorem C10_witness :
    sendEvents (runRequest cfgTwoUsers oracleDog .Scheduled none) = [] ∧
      sendEvents (runRequest cfgTwoUsers oracleDog .ManualImplicit none) = [] :=
  C10_unmatched_no_requester_silent cfgTwoUsers oracleDog rfl (by decide)

end TeleSpotter
